import Mathlib

/-!
Shallow embedding of the feedrv2 repository core.  Translated from:

- src/pipes/http.py      : the decision-plus-execution function op (the variant
                           that main.py actually calls);
- src/pipeline.py        : the second, older variant of op, plus head and get;
- src/http.py            : get_feed, head_feed, head, get (the transport layer
                           used by src/pipes/http.py through the src.http module);
- main.py                : the sweep loop (list links, decide, persist, ingest);
- src/db.py              : TYPE_MAP, make_mapped_column, build_class_shells and
                           the dev-mode database reset;
- src/db_op.py           : latest and list_rows (the two query shapes).

Modelling conventions.  Timestamps are integers counting microseconds, the
resolution of a Python datetime; a Python comparison
elapsed.total_seconds() > wait_seconds, with total_seconds() = delta_us / 10^6,
is equivalent over the rationals to delta_us > wait_seconds * 1000000, which is
how the cool-down test is written here.  Side effects (network transport,
header-date parsing, feed parsing, clock readings) are supplied through an
explicit Env record, so every effect the Python code performs becomes an
explicit input of the embedded function; fallible steps return Except.
Integer division and remainder on nonnegative operands agree with the Python
floor operators used by the source.
-/

namespace Feedrv

/-- The three crawl decisions: full GET retrieval, HEAD-style probe, or do
nothing.  In the source the decision is encoded by which request function the
chosen branch of op calls (http.get, http.head) or by returning None. -/
inductive Action
  | fetch
  | probe
  | skip
deriving DecidableEq, Repr

/-- Row of the http_head table: the record built by head() in src/http.py and
src/pipeline.py (url, issued-at, elapsed, status, last-modified, ok, reason,
timeout).  Timestamps are microseconds. -/
structure HttpHeadRec where
  timeout : Int
  url : String
  «at» : Int
  status : Int
  elapsed : Int
  last_modified : Int
  is_ok : Bool
  reason : String
deriving DecidableEq, Repr

/-- Row of the http_get table: the record built by get() in src/http.py,
a superset of HttpHeadRec adding encoding, apparent encoding, body text,
transfer-encoding and the redirect flag. -/
structure HttpGetRec where
  timeout : Int
  url : String
  «at» : Int
  status : Int
  elapsed : Int
  encoding : Option String
  apparent_encoding : String
  last_modified : Int
  text : Option String
  transfer_encoding : String
  is_redirect : Bool
  is_ok : Bool
  reason : String
deriving DecidableEq, Repr

/-- Decision logic of op in src/pipes/http.py (the variant imported by
main.py), lines 17 to 101, with the clock reading datetime.now() and the
settings value http.head.wait passed in as the arguments now and wait_seconds.
Branch order as in the source: the missing-HEAD check comes first, so a
resource with no history at all gets a HEAD request (probe), not a GET. -/
def pipes_op (last_get : Option HttpGetRec) (last_head : Option HttpHeadRec)
    (now wait_seconds : Int) : Action :=
  match last_head with
  | none => Action.probe
  | some last_head =>
    match last_get with
    | none => Action.fetch
    | some last_get =>
      if last_head.last_modified > last_get.last_modified then Action.fetch
      else if now - last_head.«at» > wait_seconds * 1000000 then Action.probe
      else Action.skip

/-- Decision logic of op in src/pipeline.py, lines 184 to 306.  The source
chains: if not any(both) (neither record, both ORM objects being truthy);
elif get present and head absent; elif get absent and head present; else both
present.  The four cases are mutually exclusive and exhaustive, written here
as a match on the pair. -/
def pipeline_op (last_get : Option HttpGetRec) (last_head : Option HttpHeadRec)
    (now wait_seconds : Int) : Action :=
  match last_get, last_head with
  | none, none => Action.fetch
  | some _, none => Action.probe
  | none, some _ => Action.fetch
  | some g, some h =>
    if h.last_modified > g.last_modified then Action.fetch
    else if now - h.«at» > wait_seconds * 1000000 then Action.probe
    else Action.skip

/-- HTTP request method of the transport layer (requests.get versus
requests.head). -/
inductive Method
  | GET
  | HEAD
deriving DecidableEq, Repr

/-- Transport failures raised by the requests library. -/
inductive NetError
  | timeout
  | connection
deriving DecidableEq, Repr

/-- Exceptions that can escape one iteration of the sweep: a transport error,
a missing response header (KeyError on resp.headers), or a timestamp string
that strptime cannot parse (ValueError). -/
inductive StepError
  | net (e : NetError)
  | missingHeader (name : String)
  | badTimestamp (raw : String)
deriving DecidableEq, Repr

/-- The parts of a requests.Response consumed by head() and get() in
src/http.py. -/
structure HttpResponse where
  status : Int
  ok : Bool
  reason : String
  header_last_modified : Option String
  header_transfer_encoding : Option String
  encoding : Option String
  apparent_encoding : String
  is_redirect : Bool
  text : String
deriving DecidableEq, Repr

/-- One entry of a parsed feed, with the keys main.py reads: id, guidislink
and title are accessed directly, link through .get with default None, and
published is the raw timestamp string later given to strptime. -/
structure FeedEntry where
  id : String
  guidislink : Bool
  title : String
  link : Option String
  published : String
deriving DecidableEq, Repr

/-- Result of feedparser.parse as consumed by main.py: bozo flag, entries,
encoding and version. -/
structure FeedDoc where
  bozo : Bool
  entries : List FeedEntry
  encoding : String
  version : String
deriving DecidableEq, Repr

/-- External collaborators and ambient settings of one sweep, made explicit:
respond is the network (requests.get or requests.head by Method);
parseHttpDate is strptime with the last-modified format, parseEntryDate is
strptime with the feed-entry format, parseFeed is feedparser.parse; atOf and
afterOf are the datetime.now() readings taken just before and just after the
request for a url, and now is the datetime.now() reading taken inside the
cool-down branch of op; wait is settings http.head.wait, and the two timeouts
are settings http.get.timeout and http.head.timeout. -/
structure Env where
  respond : String → Method → Except NetError HttpResponse
  parseHttpDate : String → Option Int
  parseEntryDate : String → Option Int
  parseFeed : Option String → FeedDoc
  atOf : String → Int
  afterOf : String → Int
  now : Int
  wait : Int
  getTimeout : Int
  headTimeout : Int

/-- get_feed of src/http.py: issues requests.get against the url. -/
def get_feed (env : Env) (url : String) : Except NetError HttpResponse :=
  env.respond url Method.GET

/-- head_feed of src/http.py: issues requests.head against the url.  Defined
in the source but never called by any other function. -/
def head_feed (env : Env) (url : String) : Except NetError HttpResponse :=
  env.respond url Method.HEAD

/-- Python timedelta normalization: the microseconds field of a timedelta of
t total microseconds is t mod 10^6, in the half-open range from 0 to 10^6
(Python normalizes with floor division, matching Int.emod for the positive
modulus). -/
def tdMicroseconds (t : Int) : Int := t % 1000000

/-- The elapsed value computed by head() and get():
(after - at).microseconds // 1000, that is, only the sub-second remainder of
the duration, expressed in whole milliseconds. -/
def elapsedMs (t : Int) : Int := tdMicroseconds t / 1000

/-- head of src/http.py, lines 41 to 81.  NOTE, faithful to the source: the
response is obtained via get_feed (requests.get), not head_feed, even though
this function builds the HEAD-style probe record.  Missing or unparsable
last-modified headers raise, modelled as Except errors. -/
def http_head (env : Env) (url : String) : Except StepError HttpHeadRec :=
  match get_feed env url with
  | Except.error e => Except.error (StepError.net e)
  | Except.ok resp =>
    match resp.header_last_modified with
    | none => Except.error (StepError.missingHeader ("last-modified"))
    | some raw =>
      match env.parseHttpDate raw with
      | none => Except.error (StepError.badTimestamp raw)
      | some lm =>
        Except.ok
          { timeout := env.headTimeout
            url := url
            «at» := env.atOf url
            status := resp.status
            elapsed := elapsedMs (env.afterOf url - env.atOf url)
            last_modified := lm
            is_ok := resp.ok
            reason := resp.reason }

/-- get of src/http.py, lines 84 to 136: full retrieval via get_feed, reading
last-modified (strptime, may raise) and transfer-encoding (KeyError if
absent), and keeping the body text on the record. -/
def http_get (env : Env) (url : String) : Except StepError HttpGetRec :=
  match get_feed env url with
  | Except.error e => Except.error (StepError.net e)
  | Except.ok resp =>
    match resp.header_last_modified with
    | none => Except.error (StepError.missingHeader ("last-modified"))
    | some raw =>
      match env.parseHttpDate raw with
      | none => Except.error (StepError.badTimestamp raw)
      | some lm =>
        match resp.header_transfer_encoding with
        | none => Except.error (StepError.missingHeader ("transfer-encoding"))
        | some te =>
          Except.ok
            { timeout := env.getTimeout
              url := url
              «at» := env.atOf url
              status := resp.status
              elapsed := elapsedMs (env.afterOf url - env.atOf url)
              encoding := resp.encoding
              apparent_encoding := resp.apparent_encoding
              last_modified := lm
              text := some resp.text
              transfer_encoding := te
              is_redirect := resp.is_redirect
              is_ok := resp.ok
              reason := resp.reason }

/-- The value op returns to main.py: an HttpGet row, an HttpHead row, or None. -/
inductive OpOut
  | get (r : HttpGetRec)
  | head (r : HttpHeadRec)
deriving DecidableEq, Repr

/-- op of src/pipes/http.py with its effects: each branch executes the request
it decided on (http.head or http.get of src/http.py) and returns the built
record, or None in the skip branch.  Exceptions propagate. -/
def pipes_op_run (env : Env) (url : String)
    (last_get : Option HttpGetRec) (last_head : Option HttpHeadRec) :
    Except StepError (Option OpOut) :=
  match last_head with
  | none => Except.map (fun r => some (OpOut.head r)) (http_head env url)
  | some lh =>
    match last_get with
    | none => Except.map (fun r => some (OpOut.get r)) (http_get env url)
    | some lg =>
      if lh.last_modified > lg.last_modified then
        Except.map (fun r => some (OpOut.get r)) (http_get env url)
      else if env.now - lh.«at» > env.wait * 1000000 then
        Except.map (fun r => some (OpOut.head r)) (http_head env url)
      else Except.ok none

/-- Executes one already-chosen Action the way the matching branch of op
does. -/
def run_action (env : Env) (url : String) : Action → Except StepError (Option OpOut)
  | Action.fetch => Except.map (fun r => some (OpOut.get r)) (http_get env url)
  | Action.probe => Except.map (fun r => some (OpOut.head r)) (http_head env url)
  | Action.skip => Except.ok none

/-- Replaces every HEAD response of the network by a transport error while
keeping the GET responses and every other collaborator unchanged.  Used to
show which transport calls a function can observe. -/
def scramble_head (env : Env) : Env :=
  { env with
    respond := fun u m =>
      match m with
      | Method.GET => env.respond u Method.GET
      | Method.HEAD => Except.error NetError.connection }

/-- Row of the feeds table as built in main.py from feedparser output. -/
structure FeedRec where
  bozo : Bool
  num_feeds : Nat
  encoding : String
  version : String
deriving DecidableEq, Repr

/-- Row of the items table as built in main.py from one feed entry. -/
structure ItemRec where
  item_id : String
  guidislink : Bool
  title : String
  link : Option String
  published : Int
deriving DecidableEq, Repr

/-- The durable store visible to one sweep: the links table plus the four
history tables.  Inserts are appends; rows are never mutated in place. -/
structure DbState where
  links : List String
  gets : List HttpGetRec
  heads : List HttpHeadRec
  feeds : List FeedRec
  items : List ItemRec
deriving DecidableEq, Repr

/-- latest of src/db_op.py specialised to the http_get table: the row with
the maximum at among rows whose url matches (order by at desc, limit 1); on
ties the storage order decides, modelled by keeping the first maximal row. -/
def latestGet (gets : List HttpGetRec) (url : String) : Option HttpGetRec :=
  gets.foldl
    (fun acc r =>
      if r.url = url then
        match acc with
        | none => some r
        | some m => if r.«at» > m.«at» then some r else some m
      else acc)
    none

/-- latest of src/db_op.py specialised to the http_head table. -/
def latestHead (heads : List HttpHeadRec) (url : String) : Option HttpHeadRec :=
  heads.foldl
    (fun acc r =>
      if r.url = url then
        match acc with
        | none => some r
        | some m => if r.«at» > m.«at» then some r else some m
      else acc)
    none

/-- The per-entry item loop at the end of main.py: each entry is converted
(strptime on its published string, which may raise) and committed one row at
a time, so rows inserted before a failing entry stay committed. -/
def insert_items (env : Env) : DbState → List FeedEntry → DbState × Option StepError
  | db, [] => (db, none)
  | db, e :: es =>
    match env.parseEntryDate e.published with
    | none => (db, some (StepError.badTimestamp e.published))
    | some pub =>
      insert_items env
        { db with items := db.items ++
            [{ item_id := e.id, guidislink := e.guidislink, title := e.title,
               link := e.link, published := pub }] }
        es

/-- The feeds row main.py builds from a parsed feed document. -/
def feed_row (fd : FeedDoc) : FeedRec :=
  { bozo := fd.bozo, num_feeds := fd.entries.length,
    encoding := fd.encoding, version := fd.version }

/-- One iteration of the sweep loop in main.py for one link: read the latest
http_get and http_head rows for the url, run op, and on a row persist it.
On an HttpGet row main.py saves the body locally, sets the text column to
None before the commit, then parses the saved body as a feed, commits a feeds
row and the item rows.  The returned pair is the store as committed so far
together with the exception that escaped, if any. -/
def process_link (env : Env) (db : DbState) (url : String) : DbState × Option StepError :=
  match pipes_op_run env url (latestGet db.gets url) (latestHead db.heads url) with
  | Except.error e => (db, some e)
  | Except.ok none => (db, none)
  | Except.ok (some (OpOut.head r)) => ({ db with heads := db.heads ++ [r] }, none)
  | Except.ok (some (OpOut.get r)) =>
    insert_items env
      { db with
        gets := db.gets ++ [{ r with text := none }],
        feeds := db.feeds ++ [feed_row (env.parseFeed r.text)] }
      (env.parseFeed r.text).entries

/-- The for-loop over links in main.py.  Faithful to the source, there is no
try/except around the body: the first exception stops the loop, the remaining
links are not processed, and the error escapes main(). -/
def sweep (env : Env) : DbState → List String → DbState × Option StepError
  | db, [] => (db, none)
  | db, url :: rest =>
    match process_link env db url with
    | (db2, none) => sweep env db2 rest
    | (db2, some e) => (db2, some e)

/-- Text column of every committed http_get row, in storage order. -/
def get_texts (db : DbState) : List (Option String) :=
  db.gets.map HttpGetRec.text

/-- TYPE_MAP of src/db.py: TOML type names to SQLAlchemy storage types
(the Lean value keeps the SQLAlchemy class name as a string). -/
def TYPE_MAP : List (String × String) :=
  [("int", "Integer"), ("integer", "Integer"), ("smallint", "SmallInteger"),
   ("bigint", "BigInteger"), ("real", "Float"), ("float", "Float"),
   ("double", "Float"), ("decimal", "Numeric"), ("bool", "Boolean"),
   ("boolean", "Boolean"), ("text", "Text"), ("varchar", "String"),
   ("char", "CHAR"), ("date", "Date"), ("time", "Time"),
   ("datetime", "DateTime"), ("timestamp", "DateTime"), ("blob", "LargeBinary"),
   ("uuid", "String"), ("str", "String"), ("json", "JSON")]

/-- One column specification from a table TOML document; every field is
optional because the source reads each with dict.get. -/
structure ColumnSpec where
  type : Option String := none
  length : Option Int := none
  nullable : Option Bool := none
  unique : Option Bool := none
  primary : Option Bool := none
  default : Option String := none
  autoincrement : Option Bool := none
deriving DecidableEq, Repr

/-- The mapped_column produced by make_mapped_column in src/db.py: the chosen
storage type, the applied length, and the four constraint flags. -/
structure MappedColumn where
  sa_type : String
  length_applied : Option Int
  primary_key : Bool
  nullable : Bool
  unique : Bool
  autoincrement : Bool
  has_default : Bool
deriving DecidableEq, Repr

/-- Membership lookup in TYPE_MAP. -/
def lookupType (name : String) : Option String :=
  Option.map (fun p => p.2) (List.find? (fun p => p.1 == name) TYPE_MAP)

/-- make_mapped_column of src/db.py, lines 150 to 184: unknown type names
raise ValueError; the length is applied only for the str type; primary-key
columns are forced non-nullable regardless of the declared nullable value;
a missing autoincrement defaults to primary-and-int. -/
def make_mapped_column (col_name : String) (spec : ColumnSpec) :
    Except String MappedColumn :=
  match spec.type with
  | none => Except.error ("Unknown type None for column " ++ col_name)
  | some tn =>
    match lookupType tn with
    | none => Except.error ("Unknown type " ++ tn ++ " for column " ++ col_name)
    | some sa =>
      Except.ok
        { sa_type := sa
          length_applied := if tn == "str" then spec.length else none
          primary_key := spec.primary.getD false
          nullable := if spec.primary.getD false then false else spec.nullable.getD true
          unique := spec.unique.getD false
          autoincrement := spec.autoincrement.getD (spec.primary.getD false && tn == "int")
          has_default := spec.default.isSome }

/-- One parsed table definition: name (possibly overridden inside the
document) and its ordered columns. -/
structure TableDef where
  table : String
  columns : List (String × ColumnSpec)
deriving DecidableEq, Repr

/-- The for-loop in build_class_shells that attaches every primary-key column
to the class attributes, calling make_mapped_column for each; the first
failure propagates. -/
def build_pk_columns : List (String × ColumnSpec) →
    Except String (List (String × MappedColumn))
  | [] => Except.ok []
  | p :: rest =>
    match make_mapped_column p.1 p.2 with
    | Except.error e => Except.error e
    | Except.ok c =>
      match build_pk_columns rest with
      | Except.error e => Except.error e
      | Except.ok cs => Except.ok ((p.1, c) :: cs)

/-- The class produced for one table at shell-building time: its table name
and the primary-key columns eagerly attached so the mapper sees at least one
primary key at class creation. -/
structure ClassShell where
  tablename : String
  pk_columns : List (String × MappedColumn)
deriving DecidableEq, Repr

/-- build_class_shells of src/db.py, lines 122 to 147: for each table
definition, collect the columns whose spec marks them primary; if there are
none, raise ValueError at once (never invent a synthetic key); otherwise
attach the mapped primary-key columns and produce the class shell. -/
def build_class_shells : List TableDef → Except String (List ClassShell)
  | [] => Except.ok []
  | td :: rest =>
    if (td.columns.filter (fun p => p.2.primary.getD false)).isEmpty then
      Except.error ("Table " ++ td.table ++ " has no primary key defined in its table TOML.")
    else
      match build_pk_columns (td.columns.filter (fun p => p.2.primary.getD false)) with
      | Except.error e => Except.error e
      | Except.ok cols =>
        match build_class_shells rest with
        | Except.error e => Except.error e
        | Except.ok others =>
          Except.ok ({ tablename := td.table, pk_columns := cols } :: others)

/-- True exactly on successful compilation results. -/
def except_is_ok {α : Type} : Except String α → Bool
  | Except.ok _ => true
  | Except.error _ => false

/-- The effective run mode computed in src/db.py main() and init():
settings.get("app", dict()).get("mode", "dev") — an absent app section or an
absent mode key yields the string dev. -/
def app_mode_of (app_mode_setting : Option String) : String :=
  app_mode_setting.getD "dev"

/-- The guard of the destructive reset in src/db.py (lines 253 to 257 and 314
to 318): the database file is unlinked exactly when the effective mode equals
dev and the file exists. -/
def dev_reset_triggered (app_mode_setting : Option String) (db_file_exists : Bool) : Bool :=
  (app_mode_of app_mode_setting == "dev") && db_file_exists

/-! Concrete sample inputs used by counterexamples and witnesses. -/

/-- A healthy response carrying both headers the source reads and the body
BODY. -/
def respGood : HttpResponse :=
  { status := 200, ok := true, reason := "OK",
    header_last_modified := some ("lm"),
    header_transfer_encoding := some ("chunked"),
    encoding := some ("utf-8"), apparent_encoding := "utf-8",
    is_redirect := false, text := "BODY" }

/-- An empty parsed feed document. -/
def emptyFeed : FeedDoc :=
  { bozo := false, entries := [], encoding := "utf-8", version := "rss20" }

/-- Network where every GET times out while every HEAD succeeds: separates
the two transport calls. -/
def env_c4 : Env :=
  { respond := fun _ m =>
      match m with
      | Method.GET => Except.error NetError.timeout
      | Method.HEAD => Except.ok respGood,
    parseHttpDate := fun _ => some (100),
    parseEntryDate := fun _ => some (0),
    parseFeed := fun _ => emptyFeed,
    atOf := fun _ => 0, afterOf := fun _ => 1000,
    now := 0, wait := 3600, getTimeout := 10, headTimeout := 5 }

/-- Environment for the sweep scenario: the request for u1 times out, every
other url answers with respGood. -/
def env_c5 : Env :=
  { respond := fun u _ =>
      if u = "u1" then Except.error NetError.timeout else Except.ok respGood,
    parseHttpDate := fun _ => some (1704067200000000),
    parseEntryDate := fun _ => some (0),
    parseFeed := fun _ => emptyFeed,
    atOf := fun _ => 0, afterOf := fun _ => 2345678,
    now := 0, wait := 3600, getTimeout := 10, headTimeout := 5 }

/-- Store with two monitored links and no history. -/
def db_c5 : DbState :=
  { links := ["u1", "u2"], gets := [], heads := [], feeds := [], items := [] }

/-- The probe row a sweep over u2 alone commits under env_c5. -/
def head_c5 : HttpHeadRec :=
  { timeout := 5, url := "u2", «at» := 0, status := 200, elapsed := 345,
    last_modified := 1704067200000000, is_ok := true, reason := "OK" }

/-- Healthy constant environment for the fetch-path scenario. -/
def env_c8 : Env :=
  { respond := fun _ _ => Except.ok respGood,
    parseHttpDate := fun _ => some (100),
    parseEntryDate := fun _ => some (0),
    parseFeed := fun _ => emptyFeed,
    atOf := fun _ => 0, afterOf := fun _ => 1000,
    now := 0, wait := 3600, getTimeout := 10, headTimeout := 5 }

/-- Store holding one probe row for u and no get row, so op chooses fetch. -/
def db_c8 : DbState :=
  { links := ["u"], gets := [],
    heads := [{ timeout := 5, url := "u", «at» := 0, status := 200, elapsed := 0,
                last_modified := 100, is_ok := true, reason := "OK" }],
    feeds := [], items := [] }

/-- The full-fetch record http_get builds under env_c8: its text field holds
the retrieved body. -/
def rG8 : HttpGetRec :=
  { timeout := 10, url := "u", «at» := 0, status := 200, elapsed := 1,
    encoding := some ("utf-8"), apparent_encoding := "utf-8",
    last_modified := 100, text := some ("BODY"), transfer_encoding := "chunked",
    is_redirect := false, is_ok := true, reason := "OK" }

/-- Environment for the elapsed-time scenario: the request takes 2.345678
seconds of wall clock. -/
def env_c9 : Env :=
  { respond := fun _ _ => Except.ok respGood,
    parseHttpDate := fun _ => some (100),
    parseEntryDate := fun _ => some (0),
    parseFeed := fun _ => emptyFeed,
    atOf := fun _ => 0, afterOf := fun _ => 2345678,
    now := 0, wait := 3600, getTimeout := 10, headTimeout := 5 }

/-- The probe record http_head builds under env_c9: although the request took
over two seconds, the recorded elapsed value is 345 milliseconds. -/
def rH9 : HttpHeadRec :=
  { timeout := 5, url := "u", «at» := 0, status := 200, elapsed := 345,
    last_modified := 100, is_ok := true, reason := "OK" }

/-- Sample full-fetch history row with last-modified 100. -/
def gW : HttpGetRec :=
  { timeout := 10, url := "u", «at» := 0, status := 200, elapsed := 0,
    encoding := none, apparent_encoding := "utf-8", last_modified := 100,
    text := some ("b"), transfer_encoding := "chunked", is_redirect := false,
    is_ok := true, reason := "OK" }

/-- Sample probe history row issued at time 0 with the same last-modified. -/
def hW : HttpHeadRec :=
  { timeout := 5, url := "u", «at» := 0, status := 200, elapsed := 0,
    last_modified := 100, is_ok := true, reason := "OK" }

/-- A table definition whose single column is not marked primary. -/
def td_no_pk : TableDef :=
  { table := "nokey", columns := [("a", { type := some ("int") })] }

/-- A primary column explicitly declared nullable. -/
def spec_c10 : ColumnSpec :=
  { type := some ("text"), nullable := some true, primary := some true }

/-- The mapped column compiled from spec_c10. -/
def col_c10 : MappedColumn :=
  { sa_type := "Text", length_applied := none, primary_key := true,
    nullable := false, unique := false, autoincrement := false,
    has_default := false }

/-! Helper lemmas shared by the claim theorems. -/

/-- The executable op factors through the pure decision: which transport call
(if any) op performs is a function of the two history rows, the clock reading
now and the cool-down wait alone. -/
theorem pipes_run_action (env : Env) (url : String)
    (g : Option HttpGetRec) (h : Option HttpHeadRec) :
    pipes_op_run env url g h = run_action env url (pipes_op g h env.now env.wait) := by
  cases h with
  | none => rfl
  | some lh =>
    cases g with
    | none => rfl
    | some lg =>
      by_cases h1 : lh.last_modified > lg.last_modified
      · simp [pipes_op_run, pipes_op, run_action, h1]
      · by_cases h2 : env.now - lh.«at» > env.wait * 1000000
        · simp [pipes_op_run, pipes_op, run_action, h1, h2]
        · simp [pipes_op_run, pipes_op, run_action, h1, h2]

/-- The item loop never touches the http_get table. -/
theorem insert_items_gets (env : Env) :
    ∀ (es : List FeedEntry) (d : DbState), (insert_items env d es).1.gets = d.gets := by
  intro es
  induction es with
  | nil => intro d; rfl
  | cons e es ih =>
    intro d
    unfold insert_items
    cases henv : env.parseEntryDate e.published with
    | none => rfl
    | some pub => exact ih _

/-- Every column attached by the primary-key loop comes from a successful
make_mapped_column call on one of the listed specifications. -/
theorem build_pk_columns_mem :
    ∀ (l : List (String × ColumnSpec)) (cols : List (String × MappedColumn)),
      build_pk_columns l = Except.ok cols →
      ∀ q, q ∈ cols → ∃ p, p ∈ l ∧ make_mapped_column p.1 p.2 = Except.ok q.2 := by
  intro l
  induction l with
  | nil =>
    intro cols hc q hq
    simp only [build_pk_columns] at hc
    injection hc with hcols
    subst hcols
    exact absurd hq (List.not_mem_nil q)
  | cons p ps ih =>
    intro cols hc q hq
    rw [build_pk_columns] at hc
    cases hm : make_mapped_column p.1 p.2 with
    | error e => rw [hm] at hc; exact Except.noConfusion hc
    | ok c =>
      rw [hm] at hc
      cases hr : build_pk_columns ps with
      | error e => rw [hr] at hc; exact Except.noConfusion hc
      | ok cs =>
        rw [hr] at hc
        injection hc with hcols
        subst hcols
        cases hq with
        | head => exact ⟨p, List.mem_cons_self p ps, hm⟩
        | tail _ hqs =>
          obtain ⟨p2, hp2, hmk⟩ := ih cs hr q hqs
          exact ⟨p2, List.mem_cons_of_mem p hp2, hmk⟩

/-- A successfully mapped column whose specification marks it primary is
always compiled non-nullable, whatever the declared nullable value. -/
theorem make_pk_not_nullable (n : String) (spec : ColumnSpec) (c : MappedColumn)
    (hp : spec.primary.getD false = true)
    (hc : make_mapped_column n spec = Except.ok c) :
    c.nullable = false := by
  unfold make_mapped_column at hc
  cases ht : spec.type with
  | none => rw [ht] at hc; exact Except.noConfusion hc
  | some tn =>
    rw [ht] at hc
    simp only [] at hc
    cases hl : lookupType tn with
    | none => rw [hl] at hc; exact Except.noConfusion hc
    | some sa =>
      rw [hl] at hc
      simp only [] at hc
      injection hc with hcol
      subst hcol
      simp [hp]

/-! Claim theorems. -/

/-- Claim C1, counterexample.  The claim states that with no prior FullFetch
record and no prior Probe record the decision is Fetch; the decision function
op of src/pipes/http.py, the one main.py invokes, instead returns Probe (it
issues a HEAD request) whenever the Probe record is missing, including on a
resource with no history at all. -/
theorem C1_counterexample :
    pipes_op none none 0 3600 = Action.probe ∧ Action.probe ≠ Action.fetch :=
  ⟨rfl, by decide⟩

/-- Claim C1 as amended.  With neither record present, the decision variant
in src/pipeline.py returns Fetch as claimed, but the variant in
src/pipes/http.py that main.py calls returns Probe, because its bootstrap
order checks the missing Probe record first. -/
theorem C1_amended (now cd : Int) :
    pipeline_op none none now cd = Action.fetch
    ∧ pipes_op none none now cd = Action.probe :=
  ⟨rfl, rfl⟩

/-- Claim C2.  When both records exist: the decision is Fetch whenever the
probe last-modified exceeds the full-fetch last-modified, regardless of the
cool-down; otherwise it is Probe exactly when now minus the probe issue time
strictly exceeds the cool-down (in microseconds, cd seconds), and Skip
exactly otherwise.  Both op variants agree on this case, and a Skip decision
makes op perform no transport call and return None. -/
theorem C2_both_exist (g : HttpGetRec) (h : HttpHeadRec) (now cd : Int) :
    (h.last_modified > g.last_modified →
        pipes_op (some g) (some h) now cd = Action.fetch
        ∧ pipeline_op (some g) (some h) now cd = Action.fetch)
    ∧ (h.last_modified ≤ g.last_modified →
        (pipes_op (some g) (some h) now cd = Action.probe ↔ now - h.«at» > cd * 1000000)
        ∧ (pipes_op (some g) (some h) now cd = Action.skip ↔ ¬ now - h.«at» > cd * 1000000))
    ∧ pipeline_op (some g) (some h) now cd = pipes_op (some g) (some h) now cd
    ∧ (∀ (env : Env) (url : String),
        pipes_op (some g) (some h) env.now env.wait = Action.skip →
        pipes_op_run env url (some g) (some h) = Except.ok none) := by
  refine ⟨?_, ?_, rfl, ?_⟩
  · intro h1
    constructor <;> simp [pipes_op, pipeline_op, h1]
  · intro hle
    have h1 : ¬ h.last_modified > g.last_modified := not_lt.mpr hle
    by_cases h2 : now - h.«at» > cd * 1000000
    · exact ⟨by simp [pipes_op, h1, h2], by simp [pipes_op, h1, h2]⟩
    · exact ⟨by simp [pipes_op, h1, h2], by simp [pipes_op, h1, h2]⟩
  · intro env url hskip
    rw [pipes_run_action env url (some g) (some h), hskip]
    rfl

/-- Claim C2, witness at the concrete scenario of the spec: both records
carry last-modified 100, the probe was issued 4000 seconds before now and
the cool-down is 3600 seconds, so the decision is Probe. -/
theorem C2_witness : pipes_op (some gW) (some hW) 4000000000 3600 = Action.probe :=
  ((C2_both_exist gW hW 4000000000 3600).2.1 (by decide)).1.mpr (by decide)

/-- Claim C3.  The decision is deterministic: it is a total function of the
two optional history rows, the current time and the cool-down, so two
evaluations on identical inputs are equal; and the effectful op factors as
run_action after the pure decision, so the network is consulted only to
execute the already-chosen action, never to choose it (the datetime.now()
read inside op supplies the current-time input). -/
theorem C3_decide_pure :
    (∀ (g : Option HttpGetRec) (h : Option HttpHeadRec) (now cd : Int) (a b : Action),
        pipes_op g h now cd = a → pipes_op g h now cd = b → a = b)
    ∧ (∀ (env : Env) (url : String) (g : Option HttpGetRec) (h : Option HttpHeadRec),
        pipes_op_run env url g h = run_action env url (pipes_op g h env.now env.wait)) :=
  ⟨fun _ _ _ _ _ _ h1 h2 => h1.symm.trans h2, pipes_run_action⟩

/-- Claim C3, witness: two evaluations of the decision on the empty history
at time 0 with cool-down 0 agree on Probe. -/
theorem C3_witness : pipes_op none none 0 0 = Action.probe :=
  C3_decide_pure.1 none none 0 0 (pipes_op none none 0 0) Action.probe rfl rfl

/-- Claim C4, code bug.  The probe path head() of src/http.py obtains its
response from get_feed, which issues requests.get, a full-body retrieval:
its outcome is unchanged when every HEAD response of the network is replaced
by an error, and under a network whose GET times out while HEAD succeeds,
head() fails with the GET timeout even though head_feed (the actual
requests.head call, defined but never used) succeeds. -/
theorem C4_probe_uses_get :
    (∀ (env : Env) (url : String), http_head env url = http_head (scramble_head env) url)
    ∧ http_head env_c4 ("http://example.com/feed")
        = Except.error (StepError.net NetError.timeout)
    ∧ head_feed env_c4 ("http://example.com/feed") = Except.ok respGood :=
  ⟨fun _ _ => rfl, rfl, rfl⟩

/-- Claim C5, code bug.  The sweep over links [u1, u2] under a network whose
request for u1 times out stops at u1 with the store unchanged: u2 is never
processed, although a sweep over u2 alone would commit its probe row.  The
for-loop in main.py has no try/except, so the claimed per-resource catch
does not exist. -/
theorem C5_sweep_aborts :
    sweep env_c5 db_c5 db_c5.links = (db_c5, some (StepError.net NetError.timeout))
    ∧ sweep env_c5 db_c5 ["u2"] = ({ db_c5 with heads := [head_c5] }, none) :=
  ⟨rfl, rfl⟩

/-- Claim C6.  A table-definition list containing a table with no
primary-marked column never compiles successfully, and whenever compilation
succeeds every listed table had at least one primary-marked column; the
produced shell carries only columns built from the definition itself, never
a synthetic key. -/
theorem C6_no_pk_fails (defs : List TableDef) :
    ((∃ td, td ∈ defs ∧ ∀ p, p ∈ td.columns → p.2.primary.getD false = false) →
        except_is_ok (build_class_shells defs) = false)
    ∧ (∀ shells, build_class_shells defs = Except.ok shells →
        ∀ td, td ∈ defs → ∃ p, p ∈ td.columns ∧ p.2.primary.getD false = true) := by
  have h2 : ∀ shells, build_class_shells defs = Except.ok shells →
      ∀ td, td ∈ defs → ∃ p, p ∈ td.columns ∧ p.2.primary.getD false = true := by
    induction defs with
    | nil =>
      intro shells hb td htd
      exact absurd htd (List.not_mem_nil td)
    | cons td0 rest ih =>
      intro shells hb td htd
      rw [build_class_shells] at hb
      split at hb
      · exact Except.noConfusion hb
      · rename_i hpk
        cases hcols : build_pk_columns (td0.columns.filter (fun p => p.2.primary.getD false)) with
        | error e => rw [hcols] at hb; exact Except.noConfusion hb
        | ok cols =>
          rw [hcols] at hb
          cases hrest : build_class_shells rest with
          | error e => rw [hrest] at hb; exact Except.noConfusion hb
          | ok others =>
            cases htd with
            | head =>
              cases hf : td0.columns.filter (fun p => p.2.primary.getD false) with
              | nil => rw [hf] at hpk; exact absurd rfl hpk
              | cons q qs =>
                have hq : q ∈ td0.columns.filter (fun p => p.2.primary.getD false) := by
                  rw [hf]; exact List.mem_cons_self q qs
                have hmem := List.mem_filter.mp hq
                exact ⟨q, hmem.1, hmem.2⟩
            | tail _ hmem => exact ih others hrest td hmem
  refine ⟨?_, h2⟩
  rintro ⟨td, htd, hall⟩
  cases hb : build_class_shells defs with
  | error e => rfl
  | ok shells =>
    obtain ⟨p, hp, hprim⟩ := h2 shells hb td htd
    rw [hall p hp] at hprim
    exact Bool.noConfusion hprim

/-- Claim C6, witness: a single table whose only column is not primary fails
compilation. -/
theorem C6_witness : except_is_ok (build_class_shells [td_no_pk]) = false :=
  (C6_no_pk_fails [td_no_pk]).1 ⟨td_no_pk, by decide⟩

/-- Claim C7, counterexample.  With the mode setting absent the source
defaults the effective mode to dev — settings.get("app", dict()).get("mode",
"dev") — so an existing database file is deleted, whereas the claim says an
absent mode setting must never trigger the deletion. -/
theorem C7_counterexample :
    dev_reset_triggered none true = true ∧ app_mode_of none = "dev" :=
  ⟨rfl, rfl⟩

/-- Claim C7 as amended.  The destructive reset triggers exactly when the
effective mode — the configured mode string, defaulting to dev when absent —
equals dev and the file exists; when the mode is explicitly set to anything
other than dev the file is never deleted. -/
theorem C7_amended (m : Option String) (f : Bool) :
    (dev_reset_triggered m f = true ↔ (app_mode_of m = "dev" ∧ f = true))
    ∧ (∀ s : String, s ≠ "dev" → dev_reset_triggered (some s) f = false) := by
  constructor
  · simp [dev_reset_triggered, Bool.and_eq_true, beq_iff_eq]
  · intro s hs
    simp [dev_reset_triggered, app_mode_of, Option.getD, hs]

/-- Claim C7, witness: an explicit prod mode never deletes the file. -/
theorem C7_witness : dev_reset_triggered (some ("prod")) true = false :=
  (C7_amended (some ("prod")) true).2 ("prod") (by decide)

/-- Claim C8, counterexample.  Under a healthy network the retrieval for u
returns a record whose text field holds the body BODY, but the row the
scheduler commits has text None: main.py sets out.text = None before
sess.add, so the stored body-text never equals the retrieved text. -/
theorem C8_counterexample :
    http_get env_c8 ("u") = Except.ok rG8
    ∧ rG8.text = some ("BODY")
    ∧ get_texts (process_link env_c8 db_c8 ("u")).1 = [none]
    ∧ some ("BODY") ≠ (none : Option String) :=
  ⟨rfl, rfl, rfl, by decide⟩

/-- Claim C8 as amended.  The FullFetch record built by the HTTP layer does
carry the retrieved body text, but the scheduler clears the text field before
committing: every http_get row present after a scheduler step either predates
the step or has text None. -/
theorem C8_amended :
    (∀ (env : Env) (url : String) (resp : HttpResponse) (r : HttpGetRec),
        get_feed env url = Except.ok resp →
        http_get env url = Except.ok r → r.text = some resp.text)
    ∧ (∀ (env : Env) (db : DbState) (url : String) (r : HttpGetRec),
        r ∈ (process_link env db url).1.gets → r ∈ db.gets ∨ r.text = none) := by
  constructor
  · intro env url resp r h1 h2
    unfold http_get at h2
    rw [h1] at h2
    simp only [] at h2
    cases hlm : resp.header_last_modified with
    | none => rw [hlm] at h2; exact Except.noConfusion h2
    | some raw =>
      rw [hlm] at h2
      simp only [] at h2
      cases hp : env.parseHttpDate raw with
      | none => rw [hp] at h2; exact Except.noConfusion h2
      | some lm =>
        rw [hp] at h2
        simp only [] at h2
        cases hte : resp.header_transfer_encoding with
        | none => rw [hte] at h2; exact Except.noConfusion h2
        | some te =>
          rw [hte] at h2
          simp only [] at h2
          injection h2 with hrec
          subst hrec
          rfl
  · intro env db url r hr
    unfold process_link at hr
    split at hr
    · exact Or.inl hr
    · exact Or.inl hr
    · exact Or.inl hr
    · rename_i r0 heq
      rw [insert_items_gets] at hr
      rcases List.mem_append.mp hr with hin | hnew
      · exact Or.inl hin
      · rw [List.mem_singleton.mp hnew]
        exact Or.inr rfl

/-- Claim C8 amended, witness: the retrieval under env_c8 carries BODY on
the built record. -/
theorem C8_amended_witness : rG8.text = some (respGood.text) :=
  C8_amended.1 env_c8 ("u") respGood rG8 rfl rfl

/-- Claim C9.  The elapsed value on a successful probe record equals the
microseconds component of (after - at) integer-divided by 1000 — only the
sub-second remainder in milliseconds — and that computation is invariant
under adding a whole second to the duration, so whole elapsed seconds are
discarded for any request of one second or longer. -/
theorem C9_elapsed (env : Env) (url : String) (r : HttpHeadRec)
    (hrun : http_head env url = Except.ok r) :
    r.elapsed = (env.afterOf url - env.atOf url) % 1000000 / 1000
    ∧ (∀ t : Int, elapsedMs (t + 1000000) = elapsedMs t) := by
  constructor
  · unfold http_head at hrun
    cases hresp : get_feed env url with
    | error e => rw [hresp] at hrun; exact Except.noConfusion hrun
    | ok resp =>
      rw [hresp] at hrun
      simp only [] at hrun
      cases hlm : resp.header_last_modified with
      | none => rw [hlm] at hrun; exact Except.noConfusion hrun
      | some raw =>
        rw [hlm] at hrun
        simp only [] at hrun
        cases hp : env.parseHttpDate raw with
        | none => rw [hp] at hrun; exact Except.noConfusion hrun
        | some lm =>
          rw [hp] at hrun
          simp only [] at hrun
          injection hrun with hrec
          subst hrec
          rfl
  · intro t
    unfold elapsedMs tdMicroseconds
    omega

/-- Claim C9, witness: a request taking 2.345678 seconds is recorded with
elapsed 345 milliseconds, the whole two seconds being discarded. -/
theorem C9_witness :
    rH9.elapsed = (env_c9.afterOf ("u") - env_c9.atOf ("u")) % 1000000 / 1000 :=
  (C9_elapsed env_c9 ("u") rH9 rfl).1

/-- Claim C10.  A mapped column compiled from a specification marked primary
is non-nullable regardless of the declared nullable value, and every
primary-key column attached to any compiled class shell is non-nullable. -/
theorem C10_primary_not_nullable :
    (∀ (n : String) (spec : ColumnSpec) (c : MappedColumn),
        spec.primary.getD false = true →
        make_mapped_column n spec = Except.ok c → c.nullable = false)
    ∧ (∀ (defs : List TableDef) (shells : List ClassShell),
        build_class_shells defs = Except.ok shells →
        ∀ sh, sh ∈ shells → ∀ pc, pc ∈ sh.pk_columns → pc.2.nullable = false) := by
  refine ⟨make_pk_not_nullable, ?_⟩
  intro defs
  induction defs with
  | nil =>
    intro shells hb sh hsh
    simp only [build_class_shells] at hb
    injection hb with hshells
    subst hshells
    exact absurd hsh (List.not_mem_nil sh)
  | cons td0 rest ih =>
    intro shells hb sh hsh pc hpc
    rw [build_class_shells] at hb
    split at hb
    · exact Except.noConfusion hb
    · cases hcols : build_pk_columns (td0.columns.filter (fun p => p.2.primary.getD false)) with
      | error e => rw [hcols] at hb; exact Except.noConfusion hb
      | ok cols =>
        rw [hcols] at hb
        cases hrest : build_class_shells rest with
        | error e => rw [hrest] at hb; exact Except.noConfusion hb
        | ok others =>
          rw [hrest] at hb
          injection hb with hshells
          subst hshells
          cases hsh with
          | head =>
            obtain ⟨p, hpmem, hmk⟩ := build_pk_columns_mem _ cols hcols pc hpc
            have hprim := (List.mem_filter.mp hpmem).2
            exact make_pk_not_nullable p.1 p.2 pc.2 hprim hmk
          | tail _ hmem => exact ih others hrest sh hmem pc hpc

/-- Claim C10, witness: a primary column explicitly declared nullable still
compiles to a non-nullable mapped column. -/
theorem C10_witness : col_c10.nullable = false :=
  C10_primary_not_nullable.1 ("id") spec_c10 col_c10 (by decide) (by rfl)

end Feedrv
